import Mathlib

/-!
Verification of the MoonTVPlus Emby adapter module.

The repository has two source files:
* `src/app/api/emby/cms-proxy/[token]/route.ts` (given unnamed): the TVBox
  CMS catalog endpoint (`GET`, `handleSearch`, `handleDetailBySearch`,
  `handleDetail`), modelled here as `cmsGet` and the handler functions.
* `src/app/api/emby/play/[token]/[filename]/route.ts`: the video stream
  proxy (`GET`, `getCachedEmbyConfig`), modelled here as `playGet` and
  `getCachedEmbyConfig`.

External effects (the `getConfig` store, the `EmbyClient` upstream calls,
the `fetch` to the Emby stream URL, cookie decoding) are passed in as
explicit oracle values, so every handler is a pure function of its request,
its environment and the oracle answers.  JavaScript `string | undefined |
null` values are modelled as `Option String`, with JS truthiness made
explicit (`strTruthy`): the empty string, `undefined` and `null` are falsy.
JS numbers that appear (season / episode indices, production year) are
integers in this code and are modelled as `Int`.
-/

/-- JS truthiness of a `string | null | undefined` value: `none` (absent) and
the empty string are falsy. -/
def strTruthy : Option String → Bool
  | none => false
  | some s => !s.isEmpty

/-- JS `a || b` on `string | null | undefined` values: `b` when `a` is falsy. -/
def strOr (a b : Option String) : Option String :=
  if strTruthy a then a else b

/-- JS `x || ''` on a `string | null | undefined` value. -/
def jsStrOrEmpty (o : Option String) : String :=
  if strTruthy o then o.getD "" else ""

/-- JS `n?.toString() || ''` for an optional integral number. -/
def jsNumOrEmpty : Option Int → String
  | none => ""
  | some n => toString n

/-- JS template interpolation of a `number | undefined` value:
`undefined` prints as the literal text `undefined`. -/
def jsOptIntStr : Option Int → String
  | none => "undefined"
  | some n => toString n

/-! ## Emby configuration (the `EmbyConfig` object read from `getConfig()`) -/

/-- The relevant fields of the `EmbyConfig` record in the site configuration.
Optional string fields are `Option String` (absent = `none`). -/
structure EmbyConfig where
  Enabled : Bool
  ServerURL : Option String
  ApiKey : Option String
  AuthToken : Option String
  UserId : Option String
  Username : Option String
  Password : Option String
deriving Repr, DecidableEq

/-! ## The play route's in-process config cache (`getCachedEmbyConfig`) -/

/-- The module-level `cachedEmbyConfig` slot of the play route:
`{ serverURL, apiKey, timestamp }`.  `timestamp` is an epoch-milliseconds
value (`Date.now()`), modelled as `Int`. -/
structure CachedEmbyConfig where
  serverURL : String
  apiKey : String
  timestamp : Int
deriving Repr, DecidableEq

/-- `CACHE_TTL = 5 * 60 * 1000` (five minutes, in milliseconds). -/
def CACHE_TTL : Int := 5 * 60 * 1000

/-- Outcome of one throwing computation: `.ok` or a thrown `Error` message. -/
inductive JsResult (α : Type) where
  | ok (value : α)
  | err (msg : String)
deriving Repr, DecidableEq

/-- The reload half of `getCachedEmbyConfig`: the body that runs on a cache
miss, given the outcome of `await getConfig()` (`.err` when `getConfig`
itself rejects, `.ok none` when `config.EmbyConfig` is absent).  Validates
`Enabled`/`ServerURL` truthiness, picks `ApiKey || AuthToken`, and builds
the new cache entry stamped with `now`. -/
def reloadEmbyConfig (now : Int) (cfg : JsResult (Option EmbyConfig)) :
    JsResult CachedEmbyConfig :=
  match cfg with
  | .err e => .err e
  | .ok none => .err "Emby 未配置或未启用"
  | .ok (some ec) =>
    if !ec.Enabled || !strTruthy ec.ServerURL then
      .err "Emby 未配置或未启用"
    else
      if !strTruthy (strOr ec.ApiKey ec.AuthToken) then
        .err "Emby 认证信息缺失"
      else
        .ok { serverURL := ec.ServerURL.getD ""
              apiKey := (strOr ec.ApiKey ec.AuthToken).getD ""
              timestamp := now }

/-- One call to `getCachedEmbyConfig`, made explicit: the returned result,
the cache slot after the call, and how many `getConfig()` fetches the call
performed. -/
structure CacheStep where
  result : JsResult CachedEmbyConfig
  state : Option CachedEmbyConfig
  fetchCount : Nat
deriving Repr, DecidableEq

/-- `getCachedEmbyConfig`: if the cached entry exists and
`now - timestamp < CACHE_TTL`, return it with no fetch; otherwise fetch the
configuration once and, on success, overwrite the slot.  A thrown reload
leaves the slot as it was (the assignment is never reached). -/
def getCachedEmbyConfig (cache : Option CachedEmbyConfig) (now : Int)
    (cfg : JsResult (Option EmbyConfig)) : CacheStep :=
  match cache with
  | some c =>
    if now - c.timestamp < CACHE_TTL then
      { result := .ok c, state := some c, fetchCount := 0 }
    else
      match reloadEmbyConfig now cfg with
      | .ok nc => { result := .ok nc, state := some nc, fetchCount := 1 }
      | .err e => { result := .err e, state := some c, fetchCount := 1 }
  | none =>
    match reloadEmbyConfig now cfg with
    | .ok nc => { result := .ok nc, state := some nc, fetchCount := 1 }
    | .err e => { result := .err e, state := none, fetchCount := 1 }

/-! ## `encodeURIComponent` -/

/-- Characters that `encodeURIComponent` leaves unescaped:
`A-Z a-z 0-9 - _ . ! ~ * ' ( )`. -/
def isUriUnreserved (c : Char) : Bool :=
  (Char.ofNat 65 ≤ c && c ≤ Char.ofNat 90) ||
  (Char.ofNat 97 ≤ c && c ≤ Char.ofNat 122) ||
  (Char.ofNat 48 ≤ c && c ≤ Char.ofNat 57) ||
  c == Char.ofNat 45 || c == Char.ofNat 95 || c == Char.ofNat 46 ||
  c == Char.ofNat 33 || c == Char.ofNat 126 || c == Char.ofNat 42 ||
  c == Char.ofNat 39 || c == Char.ofNat 40 || c == Char.ofNat 41

/-- The UTF-8 encoding of one Unicode scalar value, as byte values. -/
def charUtf8Bytes (c : Char) : List Nat :=
  if c.toNat < 128 then [c.toNat]
  else if c.toNat < 2048 then [192 + c.toNat / 64, 128 + c.toNat % 64]
  else if c.toNat < 65536 then
    [224 + c.toNat / 4096, 128 + (c.toNat / 64) % 64, 128 + c.toNat % 64]
  else
    [240 + c.toNat / 262144, 128 + (c.toNat / 4096) % 64,
     128 + (c.toNat / 64) % 64, 128 + c.toNat % 64]

/-- Upper-case hexadecimal digit. -/
def hexDigit (n : Nat) : Char :=
  if n < 10 then Char.ofNat (48 + n) else Char.ofNat (55 + n)

/-- The characters one source character contributes to
`encodeURIComponent`'s output: the character itself when unreserved, else
one `%XY` triple per UTF-8 byte. -/
def encodeCharChars (c : Char) : List Char :=
  if isUriUnreserved c then [c]
  else (charUtf8Bytes c).flatMap fun b =>
    [Char.ofNat 37, hexDigit (b / 16), hexDigit (b % 16)]

/-- JS `encodeURIComponent`: unreserved characters pass through, every other
character is percent-encoded byte-by-byte in UTF-8. -/
def encodeURIComponent (s : String) : String :=
  String.mk (s.data.flatMap encodeCharChars)

/-! ## Catalog data model (`EmbyClient` results and the CMS wire contract) -/

/-- A catalog item as returned by `EmbyClient.getItems` / `getItem`:
the fields this module reads. -/
structure EmbyItem where
  Id : String
  Name : String
  «Type» : String
  ProductionYear : Option Int
  Overview : Option String
deriving Repr, DecidableEq

/-- One episode as returned by `EmbyClient.getEpisodes`: the fields this
module reads.  `ParentIndexNumber` is the season index, `IndexNumber` the
episode index; either may be absent. -/
structure EmbyEpisode where
  Id : String
  ParentIndexNumber : Option Int
  IndexNumber : Option Int
deriving Repr, DecidableEq

/-- An `AggregatorRecord` of the CMS wire contract.  Search records carry no
play fields (`none`); detail records carry both. -/
structure AggregatorRecord where
  vod_id : String
  vod_name : String
  vod_pic : String
  vod_remarks : String
  vod_year : String
  vod_content : String
  type_name : String
  vod_play_url : Option String
  vod_play_from : Option String
deriving Repr, DecidableEq

/-- The full CMS response body shape
`{ code, msg, page, pagecount, limit, total, list }` used by every catalog
response except the bad-request one. -/
structure FullBody where
  code : Int
  msg : String
  page : Int
  pagecount : Int
  limit : Int
  total : Int
  list : List AggregatorRecord
deriving Repr, DecidableEq

/-- A catalog JSON body: either the `{ code: 400, msg }` bad-request shape
(which carries no `page`/`limit`/`total`/`list` fields) or a `FullBody`. -/
inductive CmsBody where
  | badRequest (code : Int) (msg : String)
  | full (b : FullBody)
deriving Repr, DecidableEq

/-- A catalog endpoint response: HTTP status plus JSON body.
`NextResponse.json` defaults to status 200. -/
structure CmsResponse where
  status : Nat
  body : CmsBody
deriving Repr, DecidableEq

/-- The `{ code, msg, page: 1, pagecount: 0, limit: 0, total: 0, list: [] }`
empty body shape shared by every error / empty catalog response. -/
def emptyBody (code : Int) (msg : String) : FullBody :=
  { code := code, msg := msg, page := 1, pagecount := 0, limit := 0,
    total := 0, list := [] }

/-- The oracle answering this module's external calls: `getConfig()`,
`EmbyClient.authenticate`, `EmbyClient.getItems` (keyed by the searchTerm
actually sent and the request `Limit`), `EmbyClient.getItem` and
`EmbyClient.getEpisodes`.  `.err` answers model rejected promises, which the
route's `try/catch` turns into `code: 500` bodies. -/
structure EmbyOracle where
  config : JsResult (Option EmbyConfig)
  authenticate : String → String → JsResult String
  search : Option String → Nat → JsResult (List EmbyItem)
  item : String → JsResult EmbyItem
  episodes : String → JsResult (List EmbyEpisode)

/-- Modelled from the spec: `EmbyClient.getImageUrl(itemId, 'Primary')` is
not part of the provided sources; the spec says only that the picture URL is
"derived deterministically from item id via a fixed image-endpoint
template".  No claim depends on the exact template. -/
def getImageUrl (serverURL itemId imageType : String) : String :=
  serverURL ++ "/Items/" ++ itemId ++ "/Images/" ++ imageType

/-! ## JS `Array.prototype.sort` (stable, comparator-driven) -/

/-- Insert `x` into `l` before the first element `y` with
`¬ cmp y x < 0`.  Together with `jsSortBy` this is a stable insertion sort:
on comparators that are consistent (as ECMAScript requires) it computes
exactly the stable ascending order that `Array.prototype.sort` must
produce, and on a two-element tie it keeps the original order, as every
conforming engine does. -/
def jsInsert (cmp : α → α → Int) (x : α) : List α → List α
  | [] => [x]
  | y :: ys => if cmp y x < 0 then y :: jsInsert cmp x ys else x :: y :: ys

/-- Stable sort by a JS comparator (see `jsInsert`). -/
def jsSortBy (cmp : α → α → Int) : List α → List α
  | [] => []
  | x :: xs => jsInsert cmp x (jsSortBy cmp xs)

/-- The episode comparator of `handleDetail`:
compare `ParentIndexNumber` coerced with `|| 0` when the raw values differ
(`!==`), otherwise compare `IndexNumber` coerced with `|| 0`. -/
def episodeCompare (a b : EmbyEpisode) : Int :=
  if a.ParentIndexNumber ≠ b.ParentIndexNumber then
    a.ParentIndexNumber.getD 0 - b.ParentIndexNumber.getD 0
  else
    a.IndexNumber.getD 0 - b.IndexNumber.getD 0

/-! ## The catalog handlers -/

/-- Substring test via `splitOn`: `pat` occurs in `s` (JS `includes`). -/
def strContains (s pat : String) : Bool :=
  pat.isEmpty || (s.splitOn pat).length != 1

/-- The request-derived base URL of `handleDetail`:
`process.env.SITE_BASE` when truthy, else `proto://host` with
`host = headers.host || headers['x-forwarded-host']` and
`proto = headers['x-forwarded-proto'] || (host contains localhost or
127.0.0.1 ? 'http' : 'https')`.  A `null` host interpolates as the literal
text `null`, as in JS. -/
def computeBaseUrl (siteBase hostHeader xfHost xfProto : Option String) : String :=
  let host := strOr hostHeader xfHost
  let isLocal :=
    match host with
    | none => false
    | some h => strContains h "localhost" || strContains h "127.0.0.1"
  let proto :=
    if strTruthy xfProto then xfProto.getD ""
    else if isLocal then "http" else "https"
  if strTruthy siteBase then siteBase.getD ""
  else proto ++ "://" ++ host.getD "null"

/-- The proxy play URL built by `handleDetail`:
`${baseUrl}/api/emby/play/${encodeURIComponent(token)}/video.mp4?itemId=${id}`. -/
def proxyUrl (baseUrl token itemId : String) : String :=
  baseUrl ++ "/api/emby/play/" ++ encodeURIComponent token ++
    "/video.mp4?itemId=" ++ itemId

/-- One play-list segment of a Series detail:
`` `第${ep.IndexNumber}集` ``, `$`, then the proxy URL for the episode. -/
def episodeSegment (baseUrl token : String) (ep : EmbyEpisode) : String :=
  "第" ++ jsOptIntStr ep.IndexNumber ++ "集$" ++ proxyUrl baseUrl token ep.Id

/-- The record fields shared by search and detail responses. -/
def baseRecord (serverURL : String) (item : EmbyItem) : AggregatorRecord :=
  { vod_id := item.Id
    vod_name := item.Name
    vod_pic := getImageUrl serverURL item.Id "Primary"
    vod_remarks := if item.«Type» == "Movie" then "电影" else "剧集"
    vod_year := jsNumOrEmpty item.ProductionYear
    vod_content := jsStrOrEmpty item.Overview
    type_name := if item.«Type» == "Movie" then "电影" else "电视剧"
    vod_play_url := none
    vod_play_from := none }

/-- A thrown error caught by the route's `catch`:
`{ code: 500, msg: error.message, … }` with HTTP status 200. -/
def err500 (e : String) : CmsResponse :=
  { status := 200, body := .full (emptyBody 500 e) }

/-- `handleSearch`: one `getItems` call with
`searchTerm: query || undefined, Limit: 100`; maps the items and reports
`limit = total = list.length` on a single page. -/
def handleSearch (oracle : EmbyOracle) (serverURL query : String) : CmsResponse :=
  match oracle.search (if query.isEmpty then none else some query) 100 with
  | .err e => err500 e
  | .ok items =>
    let list := items.map (baseRecord serverURL)
    { status := 200
      body := .full
        { code := 1, msg := "数据列表", page := 1, pagecount := 1,
          limit := list.length, total := list.length, list := list } }

/-- The single-item detail response built at the end of `handleDetail`:
`page = pagecount = limit = total = 1` and one record carrying
`vod_play_url` and `vod_play_from: 'Emby'`. -/
def detailResponse (serverURL : String) (item : EmbyItem) (vodPlayUrl : String) :
    CmsResponse :=
  { status := 200
    body := .full
      { code := 1, msg := "数据列表", page := 1, pagecount := 1,
        limit := 1, total := 1,
        list := [{ baseRecord serverURL item with
                    vod_play_url := some vodPlayUrl
                    vod_play_from := some "Emby" }] } }

/-- `handleDetail`: fetch the item; a Movie gets the single segment
`正片$<proxyUrl>`; a Series gets all episodes, sorted with
`episodeCompare` and joined with `#`; any other type leaves
`vod_play_url` empty. -/
def handleDetail (oracle : EmbyOracle) (serverURL itemId token baseUrl : String) :
    CmsResponse :=
  match oracle.item itemId with
  | .err e => err500 e
  | .ok item =>
    if item.«Type» == "Movie" then
      detailResponse serverURL item ("正片$" ++ proxyUrl baseUrl token item.Id)
    else if item.«Type» == "Series" then
      match oracle.episodes itemId with
      | .err e => err500 e
      | .ok allEpisodes =>
        detailResponse serverURL item (String.intercalate "#"
          ((jsSortBy episodeCompare allEpisodes).map (episodeSegment baseUrl token)))
    else
      detailResponse serverURL item ""

/-- `handleDetailBySearch`: one `getItems` call with `Limit: 1`; empty
result yields the `未找到该视频` empty body, otherwise delegates to
`handleDetail` on the first item. -/
def handleDetailBySearch (oracle : EmbyOracle) (serverURL query token baseUrl : String) :
    CmsResponse :=
  match oracle.search (some query) 1 with
  | .err e => err500 e
  | .ok [] => { status := 200, body := .full (emptyBody 0 "未找到该视频") }
  | .ok (first :: _) => handleDetail oracle serverURL first.Id token baseUrl

/-- The environment of the catalog route: the `TVBOX_SUBSCRIBE_TOKEN`
secret, `SITE_BASE`, and the request headers `handleDetail` reads. -/
structure CmsEnv where
  subscribeToken : Option String
  siteBase : Option String
  hostHeader : Option String
  xfHost : Option String
  xfProto : Option String
deriving Repr, DecidableEq

/-- The token guard shared by both routes:
`subscribeToken && requestToken === subscribeToken`. -/
def tokenValid (subscribeToken : Option String) (requestToken : String) : Bool :=
  strTruthy subscribeToken && subscribeToken == some requestToken

/-- The `wd` / `ids` / `ac === 'detail'` dispatch at the end of the catalog
`GET`, reached once the token, configuration and user id checks have all
passed.  `serverURL` is `embyConfig.ServerURL`. -/
def cmsDispatch (ac wd ids : Option String) (token : String) (env : CmsEnv)
    (oracle : EmbyOracle) (serverURL : String) : CmsResponse :=
  let baseUrl := computeBaseUrl env.siteBase env.hostHeader env.xfHost env.xfProto
  if strTruthy wd then
    if ac = some "detail" then
      handleDetailBySearch oracle serverURL (wd.getD "") token baseUrl
    else
      handleSearch oracle serverURL (wd.getD "")
  else if strTruthy ids ∨ ac = some "detail" then
    if !strTruthy ids then
      { status := 200, body := .full (emptyBody 0 "缺少视频ID") }
    else
      handleDetail oracle serverURL (ids.getD "") token baseUrl
  else
    handleSearch oracle serverURL ""

/-- The catalog route's `GET` handler (`cms-proxy/[token]/route.ts`): checks
`ac`, then the subscribe token, then loads and validates the configuration,
resolves a user id (authenticating when needed), and dispatches on
`wd` / `ids` / `ac === 'detail'` (see `cmsDispatch`). -/
def cmsGet (ac wd ids : Option String) (token : String) (env : CmsEnv)
    (oracle : EmbyOracle) : CmsResponse :=
  if ac ≠ some "videolist" ∧ ac ≠ some "list" ∧ ac ≠ some "detail" then
    { status := 400, body := .badRequest 400 "不支持的操作" }
  else if tokenValid env.subscribeToken token = false then
    { status := 200, body := .full (emptyBody 401 "无效的访问token") }
  else
    match oracle.config with
    | .err e => err500 e
    | .ok none => { status := 200, body := .full (emptyBody 0 "Emby 未配置或未启用") }
    | .ok (some ec) =>
      if !ec.Enabled || !strTruthy ec.ServerURL then
        { status := 200, body := .full (emptyBody 0 "Emby 未配置或未启用") }
      else
        match (if !strTruthy ec.UserId && strTruthy ec.Username && strTruthy ec.Password then
                 match oracle.authenticate (ec.Username.getD "") (ec.Password.getD "") with
                 | .ok uid => JsResult.ok (some uid)
                 | .err e => JsResult.err e
               else JsResult.ok ec.UserId) with
        | .err e => err500 e
        | .ok userId =>
          if !strTruthy userId then
            { status := 200, body := .full (emptyBody 0 "Emby 认证失败") }
          else
            cmsDispatch ac wd ids token env oracle (ec.ServerURL.getD "")

/-! ## The stream-proxy route (`play/[token]/[filename]/route.ts`) -/

/-- An inbound play request: path params, the `itemId` query parameter, the
inbound `range` header, and the username decoded from the auth cookie
(`getAuthInfoFromCookie(request)?.username`), flattened to `Option String`
(`none` when there is no auth info; a present-but-empty username is falsy
either way). -/
structure PlayRequest where
  token : String
  filename : String
  itemId : Option String
  range : Option String
  cookieUsername : Option String
deriving Repr, DecidableEq

/-- What the upstream `fetch` of the Emby stream URL resolved to:
`ok` is `response.ok`, the rest are the response headers the proxy reads. -/
structure UpstreamResponse where
  ok : Bool
  status : Nat
  contentType : Option String
  contentLength : Option String
  acceptRanges : Option String
  contentRange : Option String
deriving Repr, DecidableEq

/-- The distinct responses the play route can produce.  `failure` is the
outer `catch` (HTTP 500 with the error's message as `details`);
`upstreamFailed` is the `!videoResponse.ok` branch (HTTP 500);
`streamed` relays the upstream status together with the headers built for
the client. -/
inductive PlayOutcome where
  | unauthorized
  | missingItemId
  | failure (details : String)
  | upstreamFailed
  | streamed (status : Nat) (headers : List (String × String))
deriving Repr, DecidableEq

/-- The HTTP status of each play outcome. -/
def PlayOutcome.httpStatus : PlayOutcome → Nat
  | .unauthorized => 401
  | .missingItemId => 400
  | .failure _ => 500
  | .upstreamFailed => 500
  | .streamed s _ => s

/-- One call to the play route, made explicit: its outcome, the upstream
request it issued (URL and forwarded headers), if any, and the config-cache
slot after the call. -/
structure PlayResult where
  outcome : PlayOutcome
  upstreamRequest : Option (String × List (String × String))
  cacheAfter : Option CachedEmbyConfig
deriving Repr, DecidableEq

/-- A response header set only when the upstream value is truthy. -/
def optHeader (name : String) (v : Option String) : List (String × String) :=
  if strTruthy v then [(name, v.getD "")] else []

/-- The response headers the proxy sends on success: `Content-Type`
(defaulting to `video/mp4`), then `Content-Length`, `Accept-Ranges` and
`Content-Range` when present upstream, then `Content-Disposition: inline`
with the path filename. -/
def playRespHeaders (resp : UpstreamResponse) (filename : String) :
    List (String × String) :=
  [("Content-Type", if strTruthy resp.contentType then resp.contentType.getD ""
                    else "video/mp4")] ++
  optHeader "Content-Length" resp.contentLength ++
  optHeader "Accept-Ranges" resp.acceptRanges ++
  optHeader "Content-Range" resp.contentRange ++
  [("Content-Disposition", "inline; filename=\"" ++ filename ++ "\"")]

/-- The headers forwarded upstream: `if (rangeHeader)` — the inbound
`Range` header verbatim when truthy (present and non-empty), and nothing
else. -/
def forwardedHeaders (range : Option String) : List (String × String) :=
  if strTruthy range then [("Range", range.getD "")] else []

/-- The upstream Emby stream URL the proxy fetches:
`${serverURL}/Videos/${itemId}/stream?Static=true&api_key=${apiKey}`. -/
def playStreamUrl (c : CachedEmbyConfig) (itemId : String) : String :=
  c.serverURL ++ "/Videos/" ++ itemId ++ "/stream?Static=true&api_key=" ++ c.apiKey

/-- The play route's `GET` handler: dual guard (subscribe token or cookie
session), `itemId` check, config via `getCachedEmbyConfig`, then the
upstream fetch of `playStreamUrl` with the forwarded headers.  `upstream`
answers the fetch (`.err` = rejected). -/
def playGet (req : PlayRequest) (subscribeToken : Option String)
    (cache : Option CachedEmbyConfig) (now : Int)
    (cfg : JsResult (Option EmbyConfig))
    (upstream : String → List (String × String) → JsResult UpstreamResponse) :
    PlayResult :=
  if !tokenValid subscribeToken req.token && !strTruthy req.cookieUsername then
    { outcome := .unauthorized, upstreamRequest := none, cacheAfter := cache }
  else if !strTruthy req.itemId then
    { outcome := .missingItemId, upstreamRequest := none, cacheAfter := cache }
  else
    match (getCachedEmbyConfig cache now cfg).result with
    | .err e =>
      { outcome := .failure e, upstreamRequest := none,
        cacheAfter := (getCachedEmbyConfig cache now cfg).state }
    | .ok embyConfig =>
      match upstream (playStreamUrl embyConfig (req.itemId.getD ""))
          (forwardedHeaders req.range) with
      | .err e =>
        { outcome := .failure e
          upstreamRequest := some (playStreamUrl embyConfig (req.itemId.getD ""),
            forwardedHeaders req.range)
          cacheAfter := (getCachedEmbyConfig cache now cfg).state }
      | .ok videoResponse =>
        if !videoResponse.ok then
          { outcome := .upstreamFailed
            upstreamRequest := some (playStreamUrl embyConfig (req.itemId.getD ""),
              forwardedHeaders req.range)
            cacheAfter := (getCachedEmbyConfig cache now cfg).state }
        else
          { outcome := .streamed videoResponse.status
              (playRespHeaders videoResponse req.filename)
            upstreamRequest := some (playStreamUrl embyConfig (req.itemId.getD ""),
              forwardedHeaders req.range)
            cacheAfter := (getCachedEmbyConfig cache now cfg).state }

/-! ## Concrete sample inputs used by witnesses and counterexamples -/

/-- A catalog environment with the secret set to `secret`. -/
def sampleEnv : CmsEnv :=
  { subscribeToken := some "secret", siteBase := some "http://base",
    hostHeader := none, xfHost := none, xfProto := none }

/-- An oracle whose item lookup returns a Movie. -/
def movieOracle : EmbyOracle :=
  { config := .ok none
    authenticate := fun _ _ => .err "auth"
    search := fun _ _ => .ok []
    item := fun i => .ok { Id := i, Name := "M", «Type» := "Movie",
                           ProductionYear := some 2020, Overview := some "o" }
    episodes := fun _ => .ok [] }

/-- An oracle whose item lookup returns a Series with the given episodes. -/
def seriesOracle (eps : List EmbyEpisode) : EmbyOracle :=
  { config := .ok none
    authenticate := fun _ _ => .err "auth"
    search := fun _ _ => .ok []
    item := fun i => .ok { Id := i, Name := "S", «Type» := "Series",
                           ProductionYear := none, Overview := none }
    episodes := fun _ => .ok eps }

/-! ## Specification-side definitions used to state the claims -/

/-- The sort key named by the spec: `(seasonIndex, episodeIndex)` with
absent indices treated as `0`. -/
def epKey (e : EmbyEpisode) : Int × Int :=
  (e.ParentIndexNumber.getD 0, e.IndexNumber.getD 0)

/-- Lexicographic order on the sort keys. -/
def lexLe (p q : Int × Int) : Prop :=
  p.1 < q.1 ∨ (p.1 = q.1 ∧ p.2 ≤ q.2)

/-- "Episode `a` may precede episode `b`" in the spec's intended order. -/
def epLe (a b : EmbyEpisode) : Prop :=
  lexLe (epKey a) (epKey b)

instance (p q : Int × Int) : Decidable (lexLe p q) := by
  unfold lexLe
  infer_instance

instance (a b : EmbyEpisode) : Decidable (epLe a b) := by
  unfold epLe
  infer_instance

/-- The one episode pair on which `episodeCompare` disagrees with the
spec's key order: an absent season index against a season index of
literally `0` (the raw values differ, so the comparator never reaches the
episode index, yet both keys coerce to season `0`). -/
def pairOk (a b : EmbyEpisode) : Prop :=
  ¬(a.ParentIndexNumber = none ∧ b.ParentIndexNumber = some 0) ∧
  ¬(a.ParentIndexNumber = some 0 ∧ b.ParentIndexNumber = none)

/-- No episode with an absent season index coexists with an episode whose
season index is literally `0`. -/
def noMixedSeasonZero (eps : List EmbyEpisode) : Prop :=
  (∀ e ∈ eps, e.ParentIndexNumber ≠ none) ∨
  (∀ e ∈ eps, e.ParentIndexNumber ≠ some 0)

/-- The invariant claimed of every full catalog body:
`list.length = limit = total`. -/
def bodyInv (b : FullBody) : Prop :=
  (b.list.length : Int) = b.limit ∧ b.limit = b.total

/-! ## Lemmas about the JS sort -/

/-- `jsInsert` permutes: inserting `x` yields a permutation of `x :: l`. -/
theorem jsInsert_perm (cmp : α → α → Int) (x : α) (l : List α) :
    List.Perm (jsInsert cmp x l) (x :: l) := by
  induction l with
  | nil => simp [jsInsert]
  | cons y ys ih =>
    unfold jsInsert
    split
    · exact (ih.cons y).trans (List.Perm.swap x y ys)
    · exact List.Perm.refl _

/-- `jsSortBy` permutes its input. -/
theorem jsSortBy_perm (cmp : α → α → Int) (l : List α) :
    List.Perm (jsSortBy cmp l) l := by
  induction l with
  | nil => simp [jsSortBy]
  | cons x xs ih =>
    exact (jsInsert_perm cmp x (jsSortBy cmp xs)).trans (ih.cons x)

/-- `lexLe` is transitive. -/
theorem lexLe_trans (p q r : Int × Int) (h1 : lexLe p q) (h2 : lexLe q r) :
    lexLe p r := by
  unfold lexLe at *
  omega

/-- `epLe` is transitive. -/
theorem epLe_trans (a b c : EmbyEpisode) (h1 : epLe a b) (h2 : epLe b c) :
    epLe a c :=
  lexLe_trans _ _ _ h1 h2

/-- The episode comparator is antisymmetric in the JS sense:
`cmp a b = -(cmp b a)`. -/
theorem episodeCompare_neg (a b : EmbyEpisode) :
    episodeCompare a b = - episodeCompare b a := by
  unfold episodeCompare
  by_cases h : a.ParentIndexNumber = b.ParentIndexNumber
  · rw [if_neg (by simp [h]), if_neg (by simp [h])]
    omega
  · rw [if_pos h, if_pos (fun hh => h hh.symm)]
    omega

/-- Inserting `x` into a pairwise-`R` list keeps it pairwise-`R`, provided
every element the comparator places before `x` is `R`-below it and vice
versa. -/
theorem jsInsert_pairwise (cmp : α → α → Int) (R : α → α → Prop)
    (htrans : ∀ a b c, R a b → R b c → R a c)
    (x : α) (l : List α)
    (hl : List.Pairwise R l)
    (h1 : ∀ y ∈ l, cmp y x < 0 → R y x)
    (h2 : ∀ y ∈ l, ¬ cmp y x < 0 → R x y) :
    List.Pairwise R (jsInsert cmp x l) := by
  induction l with
  | nil => simp [jsInsert]
  | cons y ys ih =>
    rw [List.pairwise_cons] at hl
    unfold jsInsert
    by_cases hc : cmp y x < 0
    · rw [if_pos hc, List.pairwise_cons]
      refine ⟨fun z hz => ?_, ?_⟩
      · rcases List.mem_cons.mp ((jsInsert_perm cmp x ys).mem_iff.mp hz) with rfl | hz2
        · exact h1 y (List.mem_cons_self y ys) hc
        · exact hl.1 z hz2
      · exact ih hl.2 (fun z hz => h1 z (List.mem_cons_of_mem y hz))
          (fun z hz => h2 z (List.mem_cons_of_mem y hz))
    · rw [if_neg hc, List.pairwise_cons]
      refine ⟨fun z hz => ?_, List.pairwise_cons.mpr hl⟩
      rcases List.mem_cons.mp hz with rfl | hz2
      · exact h2 z (List.mem_cons_self z ys) hc
      · exact htrans x y z (h2 y (List.mem_cons_self y ys) hc) (hl.1 z hz2)

/-- The sorted output is pairwise-`R` whenever the comparator agrees with
`R` on the elements of the list and negates under swap. -/
theorem jsSortBy_pairwise (cmp : α → α → Int) (R : α → α → Prop)
    (htrans : ∀ a b c, R a b → R b c → R a c)
    (hneg : ∀ a b, cmp a b = - cmp b a)
    (l : List α)
    (hiff : ∀ a ∈ l, ∀ b ∈ l, (cmp a b ≤ 0 ↔ R a b)) :
    List.Pairwise R (jsSortBy cmp l) := by
  induction l with
  | nil => simp [jsSortBy]
  | cons x xs ih =>
    unfold jsSortBy
    have hmem : ∀ y ∈ jsSortBy cmp xs, y ∈ x :: xs := fun y hy =>
      List.mem_cons_of_mem x ((jsSortBy_perm cmp xs).mem_iff.mp hy)
    apply jsInsert_pairwise cmp R htrans
    · exact ih fun a ha b hb =>
        hiff a (List.mem_cons_of_mem x ha) b (List.mem_cons_of_mem x hb)
    · intro y hy hc
      exact (hiff y (hmem y hy) x (List.mem_cons_self x xs)).mp (le_of_lt hc)
    · intro y hy hc
      have h0 : cmp x y ≤ 0 := by
        have := hneg x y
        omega
      exact (hiff x (List.mem_cons_self x xs) y (hmem y hy)).mp h0

/-- On every pair outside the absent-vs-zero season anomaly, the comparator
agrees with the spec's key order. -/
theorem episodeCompare_le_iff (a b : EmbyEpisode) (h : pairOk a b) :
    episodeCompare a b ≤ 0 ↔ epLe a b := by
  obtain ⟨h1, h2⟩ := h
  unfold episodeCompare epLe lexLe epKey
  rcases ha : a.ParentIndexNumber with _ | pa <;>
    rcases hb : b.ParentIndexNumber with _ | pb
  · simp
  · have hpb : pb ≠ 0 := by
      intro hpb
      exact h1 ⟨ha, by rw [hb, hpb]⟩
    simp
    omega
  · have hpa : pa ≠ 0 := by
      intro hpa
      exact h2 ⟨by rw [ha, hpa], hb⟩
    simp
    omega
  · by_cases hp : pa = pb
    · simp [hp]
    · have : (some pa : Option Int) ≠ some pb := by
        simp [hp]
      simp [this, hp]
      omega

/-- Under `noMixedSeasonZero` the sorted episode list is ascending in the
spec's key order. -/
theorem jsSortBy_episodes_sorted (eps : List EmbyEpisode)
    (h : noMixedSeasonZero eps) :
    List.Pairwise epLe (jsSortBy episodeCompare eps) := by
  apply jsSortBy_pairwise episodeCompare epLe epLe_trans episodeCompare_neg
  intro a ha b hb
  apply episodeCompare_le_iff
  rcases h with h | h
  · exact ⟨fun hh => h a ha hh.1, fun hh => h b hb hh.2⟩
  · exact ⟨fun hh => h b hb hh.2, fun hh => h a ha hh.1⟩

/-! ## Lemmas about the config cache -/

/-- A successful reload always stamps the current time. -/
theorem reloadEmbyConfig_timestamp (now : Int) (cfg : JsResult (Option EmbyConfig))
    (nc : CachedEmbyConfig) (h : reloadEmbyConfig now cfg = .ok nc) :
    nc.timestamp = now := by
  unfold reloadEmbyConfig at h
  split at h
  · exact absurd h (by simp)
  · exact absurd h (by simp)
  · split at h
    · exact absurd h (by simp)
    · split at h
      · exact absurd h (by simp)
      · injection h with h2
        subst h2
        rfl

/-! ## Claims C1, C4, C7: the config cache -/

/-- C1: if a cached entry exists and `now - timestamp < 300000` the call
returns it unchanged with no fetch; if no entry exists or the TTL has
elapsed the call performs exactly one fetch and, when the reload succeeds,
replaces the slot with the reloaded values stamped with the new time. -/
theorem claim_C1 (cache : Option CachedEmbyConfig) (now : Int)
    (cfg : JsResult (Option EmbyConfig)) :
    (∀ c, cache = some c → now - c.timestamp < 300000 →
      getCachedEmbyConfig cache now cfg =
        { result := .ok c, state := some c, fetchCount := 0 }) ∧
    ((∀ c, cache = some c → 300000 ≤ now - c.timestamp) →
      (getCachedEmbyConfig cache now cfg).fetchCount = 1 ∧
      ∀ nc, reloadEmbyConfig now cfg = .ok nc →
        getCachedEmbyConfig cache now cfg =
          { result := .ok nc, state := some nc, fetchCount := 1 } ∧
        nc.timestamp = now) := by
  constructor
  · rintro c rfl hfresh
    have hf : now - c.timestamp < CACHE_TTL := by
      unfold CACHE_TTL
      omega
    simp [getCachedEmbyConfig, hf]
  · intro hstale
    rcases cache with _ | c
    · refine ⟨?_, ?_⟩
      · rcases hr : reloadEmbyConfig now cfg with nc | e2 <;>
          simp [getCachedEmbyConfig, hr]
      · intro nc hnc
        exact ⟨by simp [getCachedEmbyConfig, hnc],
               reloadEmbyConfig_timestamp now cfg nc hnc⟩
    · have hf : ¬ (now - c.timestamp < CACHE_TTL) := by
        have := hstale c rfl
        unfold CACHE_TTL
        omega
      refine ⟨?_, ?_⟩
      · rcases hr : reloadEmbyConfig now cfg with nc | e2 <;>
          simp [getCachedEmbyConfig, hf, hr]
      · intro nc hnc
        exact ⟨by simp [getCachedEmbyConfig, hf, hnc],
               reloadEmbyConfig_timestamp now cfg nc hnc⟩

/-- C1 witness: a fresh entry (age 1000 ms) is served from the cache with
no fetch, and an expired entry (age exactly 300000 ms) triggers one fetch. -/
theorem claim_C1_witness :
    getCachedEmbyConfig (some ⟨"s", "k", 0⟩) 1000 (.ok none) =
      { result := .ok ⟨"s", "k", 0⟩, state := some ⟨"s", "k", 0⟩, fetchCount := 0 } ∧
    (getCachedEmbyConfig (some ⟨"s", "k", 0⟩) 300000 (.ok none)).fetchCount = 1 :=
  ⟨(claim_C1 (some ⟨"s", "k", 0⟩) 1000 (.ok none)).1 ⟨"s", "k", 0⟩ rfl (by decide),
   ((claim_C1 (some ⟨"s", "k", 0⟩) 300000 (.ok none)).2
     (by
       intro c h
       injection h with h2
       subst h2
       decide)).1⟩

/-- C4: a reload that throws leaves the cache slot exactly as it was, so
any later call (the slot unchanged, any store answer) fetches again. -/
theorem claim_C4 (cache : Option CachedEmbyConfig) (now : Int)
    (cfg : JsResult (Option EmbyConfig)) (e : String)
    (h : (getCachedEmbyConfig cache now cfg).result = .err e) :
    (getCachedEmbyConfig cache now cfg).state = cache ∧
    ∀ now2, now ≤ now2 → ∀ cfg2,
      (getCachedEmbyConfig ((getCachedEmbyConfig cache now cfg).state) now2 cfg2).fetchCount
        = 1 := by
  rcases cache with _ | c
  · rcases hr : reloadEmbyConfig now cfg with nc | e2
    · simp [getCachedEmbyConfig, hr] at h
    · have hst : (getCachedEmbyConfig none now cfg).state = none := by
        simp [getCachedEmbyConfig, hr]
      refine ⟨hst, ?_⟩
      intro now2 _ cfg2
      rw [hst]
      rcases hr2 : reloadEmbyConfig now2 cfg2 with nc2 | e3 <;>
        simp [getCachedEmbyConfig, hr2]
  · by_cases hfresh : now - c.timestamp < CACHE_TTL
    · simp [getCachedEmbyConfig, hfresh] at h
    · rcases hr : reloadEmbyConfig now cfg with nc | e2
      · simp [getCachedEmbyConfig, hfresh, hr] at h
      · have hst : (getCachedEmbyConfig (some c) now cfg).state = some c := by
          simp [getCachedEmbyConfig, hfresh, hr]
        refine ⟨hst, ?_⟩
        intro now2 hle cfg2
        rw [hst]
        have hfresh2 : ¬ (now2 - c.timestamp < CACHE_TTL) := by omega
        rcases hr2 : reloadEmbyConfig now2 cfg2 with nc2 | e3 <;>
          simp [getCachedEmbyConfig, hfresh2, hr2]

/-- C4 witness: an expired entry plus an absent configuration yields an
error, the slot keeps the old entry, and the next call fetches again. -/
theorem claim_C4_witness :
    (getCachedEmbyConfig (some ⟨"s", "k", 0⟩) 300000 (.ok none)).state =
      some ⟨"s", "k", 0⟩ ∧
    (getCachedEmbyConfig
      ((getCachedEmbyConfig (some ⟨"s", "k", 0⟩) 300000 (.ok none)).state)
      300001 (.ok none)).fetchCount = 1 := by
  have h := claim_C4 (some ⟨"s", "k", 0⟩) 300000 (.ok none) "Emby 未配置或未启用"
    (by decide)
  exact ⟨h.1, h.2 300001 (by decide) (.ok none)⟩

/-- C7: reload fails when the configuration is absent, disabled or has no
truthy server URL; otherwise the credential is `ApiKey` when truthy, else
`AuthToken`, and reload fails when neither is truthy. -/
theorem claim_C7 (now : Int) (cfg : JsResult (Option EmbyConfig)) :
    (cfg = .ok none → reloadEmbyConfig now cfg = .err "Emby 未配置或未启用") ∧
    (∀ ec, cfg = .ok (some ec) →
      ((ec.Enabled = false ∨ strTruthy ec.ServerURL = false) →
        reloadEmbyConfig now cfg = .err "Emby 未配置或未启用") ∧
      (ec.Enabled = true → strTruthy ec.ServerURL = true →
        (strTruthy ec.ApiKey = true →
          reloadEmbyConfig now cfg =
            .ok ⟨ec.ServerURL.getD "", ec.ApiKey.getD "", now⟩) ∧
        (strTruthy ec.ApiKey = false → strTruthy ec.AuthToken = true →
          reloadEmbyConfig now cfg =
            .ok ⟨ec.ServerURL.getD "", ec.AuthToken.getD "", now⟩) ∧
        (strTruthy ec.ApiKey = false → strTruthy ec.AuthToken = false →
          reloadEmbyConfig now cfg = .err "Emby 认证信息缺失"))) := by
  constructor
  · rintro rfl
    rfl
  · rintro ec rfl
    constructor
    · intro h12
      rcases h12 with hE | hS
      · simp [reloadEmbyConfig, hE]
      · simp [reloadEmbyConfig, hS]
    · intro hE hS
      refine ⟨?_, ?_, ?_⟩
      · intro hA
        simp [reloadEmbyConfig, strOr, hE, hS, hA]
      · intro hA hT
        simp [reloadEmbyConfig, strOr, hE, hS, hA, hT]
      · intro hA hT
        simp [reloadEmbyConfig, strOr, hE, hS, hA, hT]

/-! ## Lemmas for the catalog body invariant -/

/-- Every `emptyBody` satisfies the invariant. -/
theorem bodyInv_emptyBody (c : Int) (m : String) : bodyInv (emptyBody c m) := by
  simp [bodyInv, emptyBody]

/-- Full-body equality transfers the invariant. -/
theorem bodyInv_of_full_eq {x b : FullBody} (hx : bodyInv x)
    (h : CmsBody.full x = .full b) : bodyInv b := by
  injection h with h2
  subst h2
  exact hx

/-- The `catch` response satisfies the invariant. -/
theorem err500_inv (e : String) (b : FullBody) (h : (err500 e).body = .full b) :
    bodyInv b := by
  unfold err500 at h
  exact bodyInv_of_full_eq (bodyInv_emptyBody 500 e) h

/-- Every full body produced by `handleSearch` satisfies the invariant. -/
theorem handleSearch_inv (o : EmbyOracle) (s q : String) (b : FullBody)
    (h : (handleSearch o s q).body = .full b) : bodyInv b := by
  unfold handleSearch at h
  split at h
  · exact err500_inv _ _ h
  · refine bodyInv_of_full_eq ?_ h
    simp [bodyInv]

/-- Every full body produced by `detailResponse` satisfies the invariant. -/
theorem detailResponse_inv (s : String) (item : EmbyItem) (v : String)
    (b : FullBody) (h : (detailResponse s item v).body = .full b) : bodyInv b := by
  unfold detailResponse at h
  refine bodyInv_of_full_eq ?_ h
  simp [bodyInv]

/-- Every full body produced by `handleDetail` satisfies the invariant. -/
theorem handleDetail_inv (o : EmbyOracle) (s i t u : String) (b : FullBody)
    (h : (handleDetail o s i t u).body = .full b) : bodyInv b := by
  unfold handleDetail at h
  split at h
  · exact err500_inv _ _ h
  · split at h
    · exact detailResponse_inv _ _ _ _ h
    · split at h
      · split at h
        · exact err500_inv _ _ h
        · exact detailResponse_inv _ _ _ _ h
      · exact detailResponse_inv _ _ _ _ h

/-- Every full body produced by `handleDetailBySearch` satisfies the
invariant. -/
theorem handleDetailBySearch_inv (o : EmbyOracle) (s q t u : String)
    (b : FullBody) (h : (handleDetailBySearch o s q t u).body = .full b) :
    bodyInv b := by
  unfold handleDetailBySearch at h
  split at h
  · exact err500_inv _ _ h
  · exact bodyInv_of_full_eq (bodyInv_emptyBody 0 "未找到该视频") h
  · exact handleDetail_inv _ _ _ _ _ _ h

/-- Every full body produced by `cmsDispatch` satisfies the invariant. -/
theorem cmsDispatch_inv (ac wd ids : Option String) (token : String)
    (env : CmsEnv) (o : EmbyOracle) (s : String) (b : FullBody)
    (h : (cmsDispatch ac wd ids token env o s).body = .full b) : bodyInv b := by
  unfold cmsDispatch at h
  split at h
  · split at h
    · exact handleDetailBySearch_inv _ _ _ _ _ _ h
    · exact handleSearch_inv _ _ _ _ h
  · split at h
    · split at h
      · exact bodyInv_of_full_eq (bodyInv_emptyBody 0 "缺少视频ID") h
      · exact handleDetail_inv _ _ _ _ _ _ h
    · exact handleSearch_inv _ _ _ _ h

/-! ## Claim C3 -/

/-- C3: every full JSON body the catalog endpoint produces (search, detail,
and every error / empty response carrying the `list`/`limit`/`total`
fields; the `{code: 400}` bad-request body carries none of them) has
`list.length = limit = total`. -/
theorem claim_C3 (ac wd ids : Option String) (token : String) (env : CmsEnv)
    (oracle : EmbyOracle) (b : FullBody)
    (h : (cmsGet ac wd ids token env oracle).body = .full b) :
    (b.list.length : Int) = b.limit ∧ b.limit = b.total := by
  unfold cmsGet at h
  split at h
  · exact absurd h (by simp)
  · split at h
    · exact bodyInv_of_full_eq (bodyInv_emptyBody 401 "无效的访问token") h
    · split at h
      · exact err500_inv _ _ h
      · exact bodyInv_of_full_eq (bodyInv_emptyBody 0 "Emby 未配置或未启用") h
      · split at h
        · exact bodyInv_of_full_eq (bodyInv_emptyBody 0 "Emby 未配置或未启用") h
        · split at h
          · exact err500_inv _ _ h
          · split at h
            · exact bodyInv_of_full_eq (bodyInv_emptyBody 0 "Emby 认证失败") h
            · exact cmsDispatch_inv _ _ _ _ _ _ _ _ h

/-- C3 witness: a concrete unauthorized response satisfies the invariant. -/
theorem claim_C3_witness :
    ((emptyBody 401 "无效的访问token").list.length : Int) =
        (emptyBody 401 "无效的访问token").limit ∧
      (emptyBody 401 "无效的访问token").limit = (emptyBody 401 "无效的访问token").total :=
  claim_C3 (some "list") none none "t"
    { subscribeToken := none, siteBase := none, hostHeader := none,
      xfHost := none, xfProto := none }
    { config := .ok none, authenticate := fun _ _ => .err "x",
      search := fun _ _ => .ok [], item := fun i => .err i,
      episodes := fun _ => .ok [] }
    (emptyBody 401 "无效的访问token") rfl

/-- C7 witness: with `ApiKey` absent and a truthy `AuthToken`, reload
succeeds with the `AuthToken` as the credential. -/
theorem claim_C7_witness :
    reloadEmbyConfig 7
      (.ok (some { Enabled := true, ServerURL := some "http://e", ApiKey := none,
                   AuthToken := some "tok", UserId := none, Username := none,
                   Password := none })) =
      .ok ⟨"http://e", "tok", 7⟩ :=
  (((claim_C7 7 _).2 _ rfl).2 rfl (by decide)).2.1 (by decide) (by decide)

/-! ## Claim C2 (corrected) and claim C9: the access guard -/

/-- C2 counterexample: the stream endpoint does not answer 401 for every
token different from the secret — a request with the wrong token but a
valid session cookie passes the guard (here it proceeds to the `itemId`
check and answers 400). -/
theorem claim_C2_counterexample :
    "wrong" ≠ "secret" ∧
    (playGet { token := "wrong", filename := "v.mp4", itemId := none,
               range := none, cookieUsername := some "alice" }
        (some "secret") none 0 (.ok none) (fun _ _ => .err "e")).outcome.httpStatus
      = 400 ∧
    (playGet { token := "wrong", filename := "v.mp4", itemId := none,
               range := none, cookieUsername := some "alice" }
        (some "secret") none 0 (.ok none) (fun _ _ => .err "e")).outcome.httpStatus
      ≠ 401 := by
  refine ⟨by decide, rfl, by decide⟩

/-- C2 (amended): for every request token different from the configured
(non-empty) secret, the catalog endpoint, on a supported `ac`, answers
HTTP 200 with the `code: 401` empty-list body; the stream endpoint answers
HTTP 401 whenever the request additionally carries no valid session
cookie. -/
theorem claim_C2_amended (secret token : String) (_hs : secret ≠ "")
    (hne : token ≠ secret) :
    (∀ ac wd ids env oracle, env.subscribeToken = some secret →
      (ac = some "videolist" ∨ ac = some "list" ∨ ac = some "detail") →
      cmsGet ac wd ids token env oracle =
        { status := 200, body := .full (emptyBody 401 "无效的访问token") }) ∧
    (∀ req : PlayRequest, req.token = token →
      strTruthy req.cookieUsername = false →
      ∀ cache now cfg upstream,
        (playGet req (some secret) cache now cfg upstream).outcome = .unauthorized ∧
        (playGet req (some secret) cache now cfg upstream).outcome.httpStatus = 401) := by
  have hv : tokenValid (some secret) token = false := by
    have h0 : (some secret : Option String) ≠ some token := by
      intro h
      exact hne (Option.some.inj h).symm
    unfold tokenValid
    rw [beq_eq_false_iff_ne.mpr h0, Bool.and_false]
  constructor
  · intro ac wd ids env oracle hst hac
    have h1 : ¬(ac ≠ some "videolist" ∧ ac ≠ some "list" ∧ ac ≠ some "detail") := by
      rcases hac with h | h | h <;> simp [h]
    unfold cmsGet
    rw [if_neg h1, if_pos (by rw [hst]; exact hv)]
  · intro req hreq hcu cache now cfg upstream
    have ho : (playGet req (some secret) cache now cfg upstream).outcome =
        .unauthorized := by
      unfold playGet
      rw [if_pos (by rw [hreq]; simp [hv, hcu])]
    refine ⟨ho, ?_⟩
    rw [ho]
    rfl

/-- C2 amended witness: wrong token with supported `ac` yields the 401
body, and wrong token without a session cookie yields HTTP 401 on the
stream endpoint. -/
theorem claim_C2_amended_witness :
    cmsGet (some "list") none none "bad" sampleEnv movieOracle =
      { status := 200, body := .full (emptyBody 401 "无效的访问token") } ∧
    (playGet { token := "bad", filename := "f", itemId := some "1", range := none,
               cookieUsername := none } (some "secret") none 0 (.ok none)
        (fun _ _ => .err "e")).outcome = .unauthorized := by
  have h := claim_C2_amended "secret" "bad" (by decide) (by decide)
  exact ⟨h.1 (some "list") none none sampleEnv movieOracle rfl (Or.inr (Or.inl rfl)),
         (h.2 _ rfl (by decide) none 0 (.ok none) (fun _ _ => .err "e")).1⟩

/-- C9: with the secret unset or empty, every catalog request with a
supported `ac` gets the `code: 401` empty-list body regardless of its
token, and the stream endpoint is unauthorized exactly when the request
carries no valid session cookie. -/
theorem claim_C9 (st : Option String) (hst : strTruthy st = false) :
    (∀ ac wd ids token env oracle, env.subscribeToken = st →
      (ac = some "videolist" ∨ ac = some "list" ∨ ac = some "detail") →
      cmsGet ac wd ids token env oracle =
        { status := 200, body := .full (emptyBody 401 "无效的访问token") }) ∧
    (∀ req cache now cfg upstream,
      (playGet req st cache now cfg upstream).outcome = .unauthorized ↔
        strTruthy req.cookieUsername = false) := by
  have hv : ∀ t : String, tokenValid st t = false := by
    intro t
    unfold tokenValid
    simp [hst]
  constructor
  · intro ac wd ids token env oracle hst2 hac
    have h1 : ¬(ac ≠ some "videolist" ∧ ac ≠ some "list" ∧ ac ≠ some "detail") := by
      rcases hac with h | h | h <;> simp [h]
    unfold cmsGet
    rw [if_neg h1, if_pos (by rw [hst2]; exact hv token)]
  · intro req cache now cfg upstream
    by_cases hcu : strTruthy req.cookieUsername = true
    · refine iff_of_false ?_ (by simp [hcu])
      intro h
      unfold playGet at h
      rw [if_neg (by simp [hcu])] at h
      split at h
      · simp at h
      · split at h
        · simp at h
        · split at h
          · simp at h
          · split at h <;> simp at h
    · have hcu2 : strTruthy req.cookieUsername = false := by
        simp at hcu
        exact hcu
      refine iff_of_true ?_ hcu2
      unfold playGet
      rw [if_pos (by simp [hv req.token, hcu2])]

/-- C9 witness: with the secret unset, a catalog request with a supported
`ac` gets the 401 body, and a stream request with no cookie is
unauthorized while one with a session cookie is not. -/
theorem claim_C9_witness :
    cmsGet (some "videolist") none none "any"
      { subscribeToken := none, siteBase := none, hostHeader := none,
        xfHost := none, xfProto := none } movieOracle =
      { status := 200, body := .full (emptyBody 401 "无效的访问token") } ∧
    ((playGet { token := "any", filename := "f", itemId := none, range := none,
                cookieUsername := none } none none 0 (.ok none)
        (fun _ _ => .err "e")).outcome = .unauthorized ↔ True) := by
  have hfalse : strTruthy (none : Option String) = false := by decide
  have h := claim_C9 none hfalse
  refine ⟨h.1 (some "videolist") none none "any" _ movieOracle rfl (Or.inl rfl), ?_⟩
  rw [h.2 { token := "any", filename := "f", itemId := none, range := none,
            cookieUsername := none } none 0 (.ok none) (fun _ _ => .err "e")]
  exact iff_of_true hfalse trivial

/-! ## Lemmas about `handleDetail` -/

/-- `handleDetail` on a Series item: the play URL is the `#`-join of the
formatted, comparator-sorted episodes. -/
theorem handleDetail_series (oracle : EmbyOracle)
    (serverURL itemId token baseUrl : String) (item : EmbyItem)
    (eps : List EmbyEpisode)
    (hitem : oracle.item itemId = .ok item)
    (htype : item.«Type» = "Series")
    (heps : oracle.episodes itemId = .ok eps) :
    handleDetail oracle serverURL itemId token baseUrl =
      detailResponse serverURL item (String.intercalate "#"
        ((jsSortBy episodeCompare eps).map (episodeSegment baseUrl token))) := by
  have hm : (item.«Type» == "Movie") = false := by simp [htype]
  have hs2 : (item.«Type» == "Series") = true := by simp [htype]
  simp [handleDetail, hitem, hm, hs2, heps]

/-- `handleDetail` on a Movie item: the play URL is the single segment
`正片$<proxyUrl>`. -/
theorem handleDetail_movie (oracle : EmbyOracle)
    (serverURL itemId token baseUrl : String) (item : EmbyItem)
    (hitem : oracle.item itemId = .ok item)
    (htype : item.«Type» = "Movie") :
    handleDetail oracle serverURL itemId token baseUrl =
      detailResponse serverURL item ("正片$" ++ proxyUrl baseUrl token item.Id) := by
  have hm : (item.«Type» == "Movie") = true := by simp [htype]
  simp [handleDetail, hitem, hm]

/-! ## Claims C5 and C10: the Series play list -/

/-- C5 counterexample: for episodes `(season absent, episode 2)` then
`(season 0, episode 1)` the comparator returns `0` (the raw season values
differ, both coerce to `0`, and the episode index is never consulted), so
the original order is kept and the play list is NOT ascending by
`(seasonIndex, episodeIndex)` with absent indices treated as `0`: the
`第2集` segment precedes the `第1集` segment. -/
theorem claim_C5_counterexample :
    jsSortBy episodeCompare
        [⟨"a", none, some 2⟩, ⟨"b", some 0, some 1⟩] =
      [⟨"a", none, some 2⟩, ⟨"b", some 0, some 1⟩] ∧
    ¬ List.Pairwise epLe
        (jsSortBy episodeCompare [⟨"a", none, some 2⟩, ⟨"b", some 0, some 1⟩]) ∧
    handleDetail (seriesOracle [⟨"a", none, some 2⟩, ⟨"b", some 0, some 1⟩])
        "srv" "i1" "tok" "http://h" =
      detailResponse "srv"
        { Id := "i1", Name := "S", «Type» := "Series", ProductionYear := none,
          Overview := none }
        ("第2集$http://h/api/emby/play/tok/video.mp4?itemId=a#第1集$http://h/api/emby/play/tok/video.mp4?itemId=b") := by
  refine ⟨by decide, by decide, by decide⟩

/-- C5 (amended): for a Series detail the play URL is the `#`-join of
segments `第N集$<proxyUrl>` over the comparator-sorted episode list, which
is a permutation of the fetched episodes; provided no episode with an
absent season index coexists with one whose season index is literally `0`,
that order is ascending by `(seasonIndex, episodeIndex)` with absent
indices treated as `0`.  (For an absent-vs-`0` season pair the comparator
returns `0` without consulting the episode index and the original order is
kept; see the counterexample.) -/
theorem claim_C5_amended (oracle : EmbyOracle)
    (serverURL itemId token baseUrl : String) (item : EmbyItem)
    (eps : List EmbyEpisode)
    (hitem : oracle.item itemId = .ok item)
    (htype : item.«Type» = "Series")
    (heps : oracle.episodes itemId = .ok eps) :
    handleDetail oracle serverURL itemId token baseUrl =
      detailResponse serverURL item (String.intercalate "#"
        ((jsSortBy episodeCompare eps).map (episodeSegment baseUrl token))) ∧
    List.Perm (jsSortBy episodeCompare eps) eps ∧
    (noMixedSeasonZero eps →
      List.Pairwise epLe (jsSortBy episodeCompare eps)) :=
  ⟨handleDetail_series oracle serverURL itemId token baseUrl item eps hitem htype heps,
   jsSortBy_perm episodeCompare eps,
   jsSortBy_episodes_sorted eps⟩

/-- C5 amended witness: the spec's example `[(1,2),(1,1),(2,1)]` comes out
in the order `(1,1),(1,2),(2,1)`, ascending in the key order, and the
response joins the segments in that order. -/
theorem claim_C5_amended_witness :
    handleDetail
        (seriesOracle [⟨"a", some 1, some 2⟩, ⟨"b", some 1, some 1⟩, ⟨"c", some 2, some 1⟩])
        "srv" "i1" "tok" "http://h" =
      detailResponse "srv"
        { Id := "i1", Name := "S", «Type» := "Series", ProductionYear := none,
          Overview := none }
        (String.intercalate "#"
          ((jsSortBy episodeCompare
              [⟨"a", some 1, some 2⟩, ⟨"b", some 1, some 1⟩, ⟨"c", some 2, some 1⟩]).map
            (episodeSegment "http://h" "tok"))) ∧
    List.Pairwise epLe
      (jsSortBy episodeCompare
        [⟨"a", some 1, some 2⟩, ⟨"b", some 1, some 1⟩, ⟨"c", some 2, some 1⟩]) ∧
    jsSortBy episodeCompare
        [⟨"a", some 1, some 2⟩, ⟨"b", some 1, some 1⟩, ⟨"c", some 2, some 1⟩] =
      [⟨"b", some 1, some 1⟩, ⟨"a", some 1, some 2⟩, ⟨"c", some 2, some 1⟩] := by
  have h := claim_C5_amended
    (seriesOracle [⟨"a", some 1, some 2⟩, ⟨"b", some 1, some 1⟩, ⟨"c", some 2, some 1⟩])
    "srv" "i1" "tok" "http://h"
    { Id := "i1", Name := "S", «Type» := "Series", ProductionYear := none,
      Overview := none }
    [⟨"a", some 1, some 2⟩, ⟨"b", some 1, some 1⟩, ⟨"c", some 2, some 1⟩]
    rfl rfl rfl
  exact ⟨h.1, h.2.2 (Or.inl (by decide)), by decide⟩

/-- C10: an episode with an absent `IndexNumber` sorts with its episode
index coerced to `0` (whenever its raw season index equals the other's,
the comparator compares `0` against the other episode's coerced index),
but the play label interpolates the raw value, so the segment built for it
is `第undefined集$<proxyUrl>`, and that segment appears in the play list
the Series detail response joins. -/
theorem claim_C10 (oracle : EmbyOracle)
    (serverURL itemId token baseUrl : String) (item : EmbyItem)
    (eps : List EmbyEpisode) (ep : EmbyEpisode)
    (hitem : oracle.item itemId = .ok item)
    (htype : item.«Type» = "Series")
    (heps : oracle.episodes itemId = .ok eps)
    (hep : ep ∈ eps)
    (hidx : ep.IndexNumber = none) :
    (∀ b, ep.ParentIndexNumber = b.ParentIndexNumber →
      episodeCompare ep b = 0 - b.IndexNumber.getD 0) ∧
    episodeSegment baseUrl token ep =
      "第undefined集$" ++ proxyUrl baseUrl token ep.Id ∧
    (∃ seg ∈ (jsSortBy episodeCompare eps).map (episodeSegment baseUrl token),
      seg = "第undefined集$" ++ proxyUrl baseUrl token ep.Id) ∧
    handleDetail oracle serverURL itemId token baseUrl =
      detailResponse serverURL item (String.intercalate "#"
        ((jsSortBy episodeCompare eps).map (episodeSegment baseUrl token))) := by
  have hseg : episodeSegment baseUrl token ep =
      "第undefined集$" ++ proxyUrl baseUrl token ep.Id := by
    simp only [episodeSegment, hidx, jsOptIntStr]
    rfl
  refine ⟨?_, hseg, ?_, ?_⟩
  · intro b hpb
    unfold episodeCompare
    rw [if_neg (by simp [hpb]), hidx]
    rfl
  · exact ⟨episodeSegment baseUrl token ep,
      List.mem_map_of_mem _ ((jsSortBy_perm episodeCompare eps).mem_iff.mpr hep),
      hseg⟩
  · exact handleDetail_series oracle serverURL itemId token baseUrl item eps
      hitem htype heps

/-- C10 witness: a concrete Series whose second episode has no
`IndexNumber` produces a `第undefined集` segment. -/
theorem claim_C10_witness :
    episodeSegment "http://h" "tok" ⟨"b", some 1, none⟩ =
      "第undefined集$" ++ proxyUrl "http://h" "tok" "b" ∧
    (∃ seg ∈ (jsSortBy episodeCompare
        [⟨"a", some 1, some 1⟩, ⟨"b", some 1, none⟩]).map
          (episodeSegment "http://h" "tok"),
      seg = "第undefined集$" ++ proxyUrl "http://h" "tok" "b") := by
  have h := claim_C10
    (seriesOracle [⟨"a", some 1, some 1⟩, ⟨"b", some 1, none⟩])
    "srv" "i1" "tok" "http://h"
    { Id := "i1", Name := "S", «Type» := "Series", ProductionYear := none,
      Overview := none }
    [⟨"a", some 1, some 1⟩, ⟨"b", some 1, none⟩] ⟨"b", some 1, none⟩
    rfl rfl rfl (by decide) rfl
  exact ⟨h.2.1, h.2.2.1⟩

/-! ## Claim C6: the upstream request of the stream proxy -/

/-- A present, non-empty string is JS-truthy. -/
theorem strTruthy_some_of_ne (r : String) (h : r ≠ "") :
    strTruthy (some r) = true := by
  rcases he : r.isEmpty with _ | _
  · show (!r.isEmpty) = true
    rw [he]
    rfl
  · exact absurd ((String.isEmpty_iff r).mp he) h

/-- C6: whenever the stream proxy issues an upstream request, its URL is
exactly the stream URL built from the resolved configuration — it starts
with the resolved server URL and ends with the resolved credential — and
the forwarded headers are exactly the inbound `Range` header when it is
truthy (present and non-empty, the source's `if (rangeHeader)` check) and
nothing otherwise. -/
theorem claim_C6 (req : PlayRequest) (subscribeToken : Option String)
    (cache : Option CachedEmbyConfig) (now : Int)
    (cfg : JsResult (Option EmbyConfig))
    (upstream : String → List (String × String) → JsResult UpstreamResponse)
    (url : String) (hdrs : List (String × String))
    (h : (playGet req subscribeToken cache now cfg upstream).upstreamRequest =
      some (url, hdrs)) :
    (∃ embyConfig, (getCachedEmbyConfig cache now cfg).result = .ok embyConfig ∧
      url = playStreamUrl embyConfig (req.itemId.getD "") ∧
      (∃ post, url = embyConfig.serverURL ++ post) ∧
      (∃ pre, url = pre ++ embyConfig.apiKey)) ∧
    hdrs = forwardedHeaders req.range ∧
    (∀ r, req.range = some r → r ≠ "" → hdrs = [("Range", r)]) ∧
    (strTruthy req.range = false → hdrs = []) := by
  unfold playGet at h
  split at h
  · exact absurd h (by simp)
  · split at h
    · exact absurd h (by simp)
    · split at h
      · exact absurd h (by simp)
      · rename_i embyConfig heq
        have hmain : url = playStreamUrl embyConfig (req.itemId.getD "") ∧
            hdrs = forwardedHeaders req.range := by
          split at h
          · simp only [Option.some.injEq, Prod.mk.injEq] at h
            exact ⟨h.1.symm, h.2.symm⟩
          · split at h <;>
              (simp only [Option.some.injEq, Prod.mk.injEq] at h
               exact ⟨h.1.symm, h.2.symm⟩)
        obtain ⟨hurl, hhdrs⟩ := hmain
        subst hurl
        subst hhdrs
        refine ⟨⟨embyConfig, heq, rfl, ?_, ?_⟩, rfl, ?_, ?_⟩
        · refine ⟨"/Videos/" ++ req.itemId.getD "" ++
            "/stream?Static=true&api_key=" ++ embyConfig.apiKey, ?_⟩
          simp [playStreamUrl, String.append_assoc]
        · exact ⟨embyConfig.serverURL ++ "/Videos/" ++ req.itemId.getD "" ++
            "/stream?Static=true&api_key=", rfl⟩
        · intro r hr hne
          rw [hr]
          unfold forwardedHeaders
          rw [if_pos (strTruthy_some_of_ne r hne)]
          rfl
        · intro hr
          unfold forwardedHeaders
          rw [if_neg (by simp [hr])]

/-- C6 witness: a fresh cached configuration and an inbound
`Range: bytes=0-99` yield an upstream request whose headers are exactly
that `Range` header. -/
theorem claim_C6_witness :
    (playGet { token := "secret", filename := "f.mp4", itemId := some "42",
               range := some "bytes=0-99", cookieUsername := none }
        (some "secret") (some ⟨"http://emby", "key", 0⟩) 1000 (.ok none)
        (fun _ _ => .ok ⟨true, 200, none, none, none, none⟩)).upstreamRequest =
      some ("http://emby/Videos/42/stream?Static=true&api_key=key",
        [("Range", "bytes=0-99")]) ∧
    [("Range", "bytes=0-99")] =
      forwardedHeaders (some "bytes=0-99") := by
  have h := claim_C6 ⟨"secret", "f.mp4", some "42", some "bytes=0-99", none⟩
    (some "secret") (some ⟨"http://emby", "key", 0⟩) 1000 (.ok none)
    (fun _ _ => .ok ⟨true, 200, none, none, none, none⟩)
    "http://emby/Videos/42/stream?Static=true&api_key=key"
    [("Range", "bytes=0-99")] (by decide)
  exact ⟨by decide, h.2.1⟩

/-! ## Claim C8: the Movie play entry -/

/-- Every byte emitted by `charUtf8Bytes` is below 256. -/
theorem charUtf8Bytes_lt_256 (c : Char) : ∀ b ∈ charUtf8Bytes c, b < 256 := by
  have hv : c.toNat < 1114112 := by
    rcases c.valid with h | h <;> (unfold Char.toNat; omega)
  intro b hb
  unfold charUtf8Bytes at hb
  split at hb
  · simp at hb
    omega
  · split at hb
    · simp at hb
      rcases hb with rfl | rfl <;> omega
    · split at hb
      · simp at hb
        rcases hb with rfl | rfl | rfl <;> omega
      · simp at hb
        rcases hb with rfl | rfl | rfl | rfl <;> omega

/-- A hexadecimal digit character is never `#`. -/
theorem hexDigit_ne_hash (n : Nat) (h : n < 16) :
    hexDigit n ≠ Char.ofNat 35 := by
  interval_cases n <;> decide

/-- `#` never occurs among the characters one character encodes to. -/
theorem hash_not_mem_encodeCharChars (c : Char) :
    Char.ofNat 35 ∉ encodeCharChars c := by
  intro hmem
  unfold encodeCharChars at hmem
  split at hmem
  · rename_i hres
    simp at hmem
    subst hmem
    exact absurd hres (by decide)
  · rcases List.mem_flatMap.mp hmem with ⟨b, hb, hmem2⟩
    have hblt := charUtf8Bytes_lt_256 c b hb
    rcases List.mem_cons.mp hmem2 with h2 | hmem3
    · exact absurd h2 (by decide)
    rcases List.mem_cons.mp hmem3 with h2 | hmem4
    · exact hexDigit_ne_hash (b / 16) (by omega) h2.symm
    rcases List.mem_cons.mp hmem4 with h2 | hmem5
    · exact hexDigit_ne_hash (b % 16) (by omega) h2.symm
    simp at hmem5

/-- `#` never occurs in an `encodeURIComponent` output. -/
theorem hash_not_mem_encodeURIComponent (s : String) :
    Char.ofNat 35 ∉ (encodeURIComponent s).data := by
  intro hmem
  replace hmem : Char.ofNat 35 ∈ s.data.flatMap encodeCharChars := hmem
  rcases List.mem_flatMap.mp hmem with ⟨c, _, hc⟩
  exact hash_not_mem_encodeCharChars c hc

/-- C8: a Movie detail's `vod_play_url` is the single entry
`正片$<proxyUrl>`, where the proxy URL points back at this module's
`/api/emby/play/` stream endpoint; when neither the base URL nor the item
id contains `#` (the encoded token never does), the entry contains no `#`
at all, so it is exactly one segment of the `#`-joined play-list format. -/
theorem claim_C8 (oracle : EmbyOracle)
    (serverURL itemId token baseUrl : String) (item : EmbyItem)
    (hitem : oracle.item itemId = .ok item)
    (htype : item.«Type» = "Movie")
    (hb : Char.ofNat 35 ∉ baseUrl.data)
    (hid : Char.ofNat 35 ∉ item.Id.data) :
    handleDetail oracle serverURL itemId token baseUrl =
      detailResponse serverURL item ("正片$" ++ proxyUrl baseUrl token item.Id) ∧
    (∃ suffix, proxyUrl baseUrl token item.Id =
      baseUrl ++ "/api/emby/play/" ++ suffix) ∧
    (∀ pre post, "正片$" ++ proxyUrl baseUrl token item.Id ≠ pre ++ "#" ++ post) := by
  refine ⟨handleDetail_movie oracle serverURL itemId token baseUrl item hitem htype,
    ⟨encodeURIComponent token ++ "/video.mp4?itemId=" ++ item.Id,
      by simp [proxyUrl, String.append_assoc]⟩, ?_⟩
  have hvod : Char.ofNat 35 ∉ ("正片$" ++ proxyUrl baseUrl token item.Id).data := by
    intro hmem
    unfold proxyUrl at hmem
    simp only [String.data_append, List.mem_append] at hmem
    rcases hmem with h | ((((h | h) | h) | h) | h)
    · exact absurd h (by decide)
    · exact hb h
    · exact absurd h (by decide)
    · exact hash_not_mem_encodeURIComponent token h
    · exact absurd h (by decide)
    · exact hid h
  intro pre post heq
  apply hvod
  rw [heq]
  simp only [String.data_append, List.mem_append]
  exact Or.inl (Or.inr (by decide))

/-- C8 witness: a concrete Movie detail has the single `正片$…` entry. -/
theorem claim_C8_witness :
    handleDetail movieOracle "srv" "m1" "tok" "http://h" =
      detailResponse "srv"
        { Id := "m1", Name := "M", «Type» := "Movie", ProductionYear := some 2020,
          Overview := some "o" }
        ("正片$" ++ proxyUrl "http://h" "tok" "m1") ∧
    (∃ suffix, proxyUrl "http://h" "tok" "m1" =
      "http://h" ++ "/api/emby/play/" ++ suffix) := by
  have h := claim_C8 movieOracle "srv" "m1" "tok" "http://h"
    { Id := "m1", Name := "M", «Type» := "Movie", ProductionYear := some 2020,
      Overview := some "o" }
    rfl rfl (by decide) (by decide)
  exact ⟨h.1, h.2.1⟩
